import Mathlib

set_option autoImplicit false

namespace Reqwest

/-! Shallow embedding of `src/client.rs` of the reqwest repository: the
redirect-following execution engine (`ClientRef::execute_request`), the
Referer computation (`make_referer`), and the one-shot `ClientBuilder`.
URL parsing/joining, TLS and the byte-level transport are external
collaborators; they enter as parameters (a `join` function and a script of
responses).  Parts of the repository that `client.rs` calls but that are
not present in the sources (the `redirect` and `body` modules) are
modelled from the specification and marked as such in their doc comment. -/

/-- HTTP request methods (hyper's `Method` as used by `client.rs`). -/
inductive Method where
  | GET
  | HEAD
  | POST
  | PUT
  | PATCH
  | DELETE
  | OPTIONS
  | TRACE
  | CONNECT
  deriving DecidableEq

/-- A parsed URL (the `url` crate's `Url`), restricted to the components this
code reads or writes: scheme, userinfo, host, port, path, query, fragment. -/
structure Url where
  scheme : String
  username : String
  password : Option String
  host : String
  port : Option Nat
  path : String
  query : Option String
  fragment : Option String
  deriving DecidableEq

/-- `Url::into_string`: serialization of a URL, external to the core; any
injective-enough rendering of the components serves the embedding. -/
def urlToString (u : Url) : String :=
  u.scheme ++ "://" ++
  (if u.username = "" ∧ u.password = none then ""
   else
     u.username ++
     (match u.password with
      | some p => ":" ++ p
      | none => "") ++ "@") ++
  u.host ++
  (match u.port with
   | some p => ":" ++ toString p
   | none => "") ++
  u.path ++
  (match u.query with
   | some q => "?" ++ q
   | none => "") ++
  (match u.fragment with
   | some f => "#" ++ f
   | none => "")

/-- Header map (hyper's `Headers`): a list of name/value pairs whose names
compare case-insensitively; `set` replaces every entry of the same name. -/
abbrev Headers := List (String × String)

/-- ASCII lowercasing of one character of a header name. -/
def lowerChar (c : Char) : Char :=
  if 65 ≤ c.toNat ∧ c.toNat ≤ 90 then Char.ofNat (c.toNat + 32) else c

/-- Case-insensitive (ASCII) equality of header names, the comparison hyper
uses for header lookup. -/
def headerNameEq (a b : String) : Bool :=
  a.data.map lowerChar == b.data.map lowerChar

/-- `Headers::has`: is a header of this (case-insensitive) name present? -/
def hasHeader (hs : Headers) (name : String) : Bool :=
  hs.any (fun p => headerNameEq p.1 name)

/-- Lookup of a header value by (case-insensitive) name. -/
def getHeader (hs : Headers) (name : String) : Option String :=
  (hs.find? (fun p => headerNameEq p.1 name)).map Prod.snd

/-- `Headers::set`: store a header, replacing any previous value of the name. -/
def setHeader (hs : Headers) (name value : String) : Headers :=
  (name, value) :: hs.filter (fun p => !headerNameEq p.1 name)

/-- `Headers::remove`: drop every header of this (case-insensitive) name. -/
def removeHeader (hs : Headers) (name : String) : Headers :=
  hs.filter (fun p => !headerNameEq p.1 name)

/-- Modelled from the spec: a request body (the missing `body` module)
exposes only whether it can be re-sent after consumption; the payload itself
never influences the control flow of `execute_request`. -/
structure Body where
  canReset : Bool
  deriving DecidableEq

/-- Modelled from the spec: `body::can_reset` (missing `body` module) reports
whether the body is resettable. -/
def can_reset (b : Body) : Bool :=
  b.canReset

/-- Modelled from the spec: the action a redirect policy returns (missing
`redirect` module). -/
inductive Action where
  | follow
  | stop
  | loopDetected
  | tooManyRedirects
  deriving DecidableEq

/-- Modelled from the spec: `RedirectPolicy` (missing `redirect` module) is
one of NoFollow, Limit(n), or Custom predicate over the candidate URL and the
visited history. -/
inductive RedirectPolicy where
  | noFollow
  | limit (n : Nat)
  | custom (f : Url → List Url → Action)

/-- The default policy: follow redirects up to a maximum of 10. -/
def RedirectPolicy.default : RedirectPolicy :=
  .limit 10

/-- Modelled from the spec: `check_redirect` (missing `redirect` module).
NoFollow always stops; Limit n reports a loop when the candidate already
appears in the history, too many redirects when the history length exceeds n,
and otherwise follows (loop detection takes precedence over the count limit);
Custom delegates to the caller-supplied predicate. -/
def check_redirect (policy : RedirectPolicy) (next : Url) (urls : List Url) :
    Action :=
  match policy with
  | .noFollow => .stop
  | .limit n =>
    if next ∈ urls then .loopDetected
    else if urls.length > n then .tooManyRedirects
    else .follow
  | .custom f => f next urls

/-- The headers `remove_sensitive_headers` strips. -/
def sensitiveHeaderNames : List String :=
  ["Authorization", "Cookie", "Proxy-Authorization"]

/-- Modelled from the spec: `remove_sensitive_headers` (missing `redirect`
module) strips the authentication- and session-carrying headers whenever the
redirect target differs from the prior hop's URL in host or scheme, and
leaves the headers untouched on a same-host, same-scheme redirect. -/
def remove_sensitive_headers (headers : Headers) (next : Url)
    (previous : List Url) : Headers :=
  match previous.getLast? with
  | none => headers
  | some prev =>
    if next.host = prev.host ∧ next.scheme = prev.scheme then headers
    else
      removeHeader
        (removeHeader (removeHeader headers "Authorization") "Cookie")
        "Proxy-Authorization"

/-- The compiled-in default User-Agent value
(`CARGO_PKG_NAME "/" CARGO_PKG_VERSION`); its exact text is immaterial. -/
def DEFAULT_USER_AGENT : String :=
  "reqwest/0.0.0"

/-- `make_referer` (`client.rs` lines 440-450): no value on an https → http
downgrade; otherwise the previous URL with username set to empty, password
cleared and fragment removed, serialized as the header value. -/
def make_referer (next previous : Url) : Option String :=
  if next.scheme = "http" ∧ previous.scheme = "https" then none
  else
    some (urlToString
      { previous with username := "", password := none, fragment := none })

/-- One raw response from the transport collaborator: status code, the
`Location` header value when present, and the exchange's final URL
(`res.url`).  No other response header influences the engine. -/
structure Response where
  status : Nat
  locationHeader : Option String
  url : Url
  deriving DecidableEq

/-- The errors `execute_request` can surface (from the `error` module:
transport failure carrying the URL, `loop_detected`, `too_many_redirects`). -/
inductive ExecError where
  | transportError (url : Url)
  | loopDetected (url : Url)
  | tooManyRedirects (url : Url)
  deriving DecidableEq

/-- One outgoing request as handed to the transport: the observable trace of
the engine. -/
structure SentRequest where
  method : Method
  url : Url
  headers : Headers
  body : Option Body
  deriving DecidableEq

/-- The configuration `ClientRef` retains for execution (`client.rs` lines
321-326); the hyper client itself is replaced by the `join` and response
parameters of the loop. -/
structure ClientRef where
  gzip : Bool
  redirect_policy : RedirectPolicy
  referer : Bool

/-- The status classification of `execute_request` (`client.rs` lines
366-388), computing `should_redirect` together with the updated method and
body: 301/302/303 drop the body and rewrite non-GET/HEAD methods to GET and
are always eligible; 307/308 are eligible when the body is absent or
resettable and preserve method and body; every other status is terminal. -/
def classify (status : Nat) (method : Method) (body : Option Body) :
    Bool × Method × Option Body :=
  if status = 301 ∨ status = 302 ∨ status = 303 then
    let body : Option Body := none
    let method :=
      match method with
      | .GET => method
      | .HEAD => method
      | _ => .GET
    (true, method, body)
  else if status = 307 ∨ status = 308 then
    ((match body with
      | some b => can_reset b
      | none => true), method, body)
  else (false, method, body)

/-- The Referer step of `execute_request` (`client.rs` lines 402-406): when
Referer support is enabled and `make_referer` yields a value, set it;
otherwise leave the headers exactly as they are. -/
def apply_referer (refererEnabled : Bool) (headers : Headers)
    (next previous : Url) : Headers :=
  if refererEnabled then
    match make_referer next previous with
    | some r => setHeader headers "Referer" r
    | none => headers
  else headers

/-- The redirect loop of `ClientRef::execute_request` (`client.rs` lines
350-436).  The transport is a script of responses, one consumed per send; an
exhausted script is a transport failure for the attempted URL.  The result
pairs the trace of outgoing requests with the terminal outcome.  The gzip
response wrapper (`response::new(res, gzip)`) carries the raw response
through unchanged, so the terminal value is the response itself. -/
def executeLoop (cfg : ClientRef) (join : Url → String → Option Url) :
    List Response → Method → Url → Headers → Option Body → List Url →
    List SentRequest × Except ExecError Response
  | [], method, url, headers, body, _ =>
    ([{ method := method, url := url, headers := headers, body := body }],
      .error (.transportError url))
  | res :: rest, method, url, headers, body, urls =>
    let sent : SentRequest :=
      { method := method, url := url, headers := headers, body := body }
    let c := classify res.status method body
    let method := c.2.1
    let body := c.2.2
    if c.1 then
      match res.locationHeader with
      | none => ([sent], .ok res)
      | some locStr =>
        match join url locStr with
        | none => ([sent], .ok res)
        | some loc =>
          let headers := apply_referer cfg.referer headers loc url
          let urls := urls ++ [url]
          match check_redirect cfg.redirect_policy loc urls with
          | .follow =>
            let headers := remove_sensitive_headers headers loc urls
            let r := executeLoop cfg join rest method loc headers body urls
            (sent :: r.1, r.2)
          | .stop => ([sent], .ok res)
          | .loopDetected => ([sent], .error (.loopDetected res.url))
          | .tooManyRedirects => ([sent], .error (.tooManyRedirects res.url))
    else
      ([sent], .ok res)

/-- A request as produced by `request::pieces`: method, URL, headers,
optional body. -/
structure Request where
  method : Method
  url : Url
  headers : Headers
  body : Option Body

/-- The default-header phase on entry to `execute_request` (`client.rs`
lines 337-348): a default User-Agent when none is present, `Accept: */*`
when no Accept is present, and `Accept-Encoding: gzip` when gzip is enabled
and neither an Accept-Encoding nor a Range header is present. -/
def default_headers (gzip : Bool) (headers : Headers) : Headers :=
  let headers :=
    if hasHeader headers "User-Agent" then headers
    else setHeader headers "User-Agent" DEFAULT_USER_AGENT
  let headers :=
    if hasHeader headers "Accept" then headers
    else setHeader headers "Accept" "*/*"
  let headers :=
    if gzip && !hasHeader headers "Accept-Encoding" &&
        !hasHeader headers "Range" then
      setHeader headers "Accept-Encoding" "gzip"
    else headers
  headers

/-- `ClientRef::execute_request`: default headers, then the redirect loop
started with an empty visited history. -/
def execute_request (cfg : ClientRef) (join : Url → String → Option Url)
    (responses : List Response) (req : Request) :
    List SentRequest × Except ExecError Response :=
  executeLoop cfg join responses req.method req.url
    (default_headers cfg.gzip req.headers) req.body []

/-- An X509 certificate (`Certificate`): an opaque wrapper around DER bytes,
consumed only by the TLS trust configuration. -/
structure Certificate where
  der : List Nat
  deriving DecidableEq

/-- The builder's configuration (`Config`, `client.rs` lines 108-115); the
TLS connector builder is modelled by the list of added root certificates. -/
structure Config where
  gzip : Bool
  hostname_verification : Bool
  redirect_policy : RedirectPolicy
  referer : Bool
  timeout : Option Nat
  tls : List Certificate

/-- `ClientBuilder` (`client.rs` lines 104-106): an optional configuration,
emptied once `build` consumes it. -/
structure ClientBuilder where
  config : Option Config

/-- The message of the panic raised on reuse of a consumed builder. -/
def builderPanicMsg : String :=
  "ClientBuilder cannot be reused after building a Client"

/-- `ClientBuilder::new` (`client.rs` lines 119-131): secure defaults. -/
def ClientBuilder.new : ClientBuilder :=
  { config := some
      { gzip := true
        hostname_verification := true
        redirect_policy := RedirectPolicy.default
        referer := true
        timeout := none
        tls := [] } }

/-- `ClientBuilder::config_mut` followed by a field update (`client.rs`
lines 234-238): the panic on a consumed builder is modelled as the error
value carrying the panic message. -/
def config_mut_then (b : ClientBuilder) (f : Config → Config) :
    Except String ClientBuilder :=
  match b.config with
  | none => .error builderPanicMsg
  | some c => .ok { config := some (f c) }

/-- `ClientBuilder::take_config` (`client.rs` lines 240-244): yields the
configuration and the builder with its configuration taken, or the reuse
panic. -/
def take_config (b : ClientBuilder) :
    Except String (Config × ClientBuilder) :=
  match b.config with
  | none => .error builderPanicMsg
  | some c => .ok (c, { config := none })

/-- The client handle produced by `build` (the fields of `ClientRef` the
configuration determines). -/
structure Client where
  gzip : Bool
  redirect_policy : RedirectPolicy
  referer : Bool

/-- `ClientBuilder::build` (`client.rs` lines 139-167): takes the
configuration (panicking on a consumed builder) and constructs the client;
the TLS connector construction is external and modelled as succeeding. -/
def ClientBuilder.build (b : ClientBuilder) :
    Except String (Client × ClientBuilder) :=
  match take_config b with
  | .error e => .error e
  | .ok (config, b2) =>
    .ok ({ gzip := config.gzip
           redirect_policy := config.redirect_policy
           referer := config.referer }, b2)

/-- `ClientBuilder::add_root_certificate` (`client.rs` lines 173-176). -/
def ClientBuilder.add_root_certificate (b : ClientBuilder)
    (cert : Certificate) : Except String ClientBuilder :=
  config_mut_then b (fun c => { c with tls := c.tls ++ [cert] })

/-- `ClientBuilder::danger_disable_hostname_verification` (`client.rs`
lines 187-190). -/
def ClientBuilder.danger_disable_hostname_verification (b : ClientBuilder) :
    Except String ClientBuilder :=
  config_mut_then b (fun c => { c with hostname_verification := false })

/-- `ClientBuilder::enable_hostname_verification` (`client.rs`
lines 194-197). -/
def ClientBuilder.enable_hostname_verification (b : ClientBuilder) :
    Except String ClientBuilder :=
  config_mut_then b (fun c => { c with hostname_verification := true })

/-- `ClientBuilder::gzip` (`client.rs` lines 203-206). -/
def ClientBuilder.gzip (b : ClientBuilder) (enable : Bool) :
    Except String ClientBuilder :=
  config_mut_then b (fun c => { c with gzip := enable })

/-- `ClientBuilder::redirect` (`client.rs` lines 212-215). -/
def ClientBuilder.redirect (b : ClientBuilder) (policy : RedirectPolicy) :
    Except String ClientBuilder :=
  config_mut_then b (fun c => { c with redirect_policy := policy })

/-- `ClientBuilder::referer` (`client.rs` lines 221-224). -/
def ClientBuilder.referer (b : ClientBuilder) (enable : Bool) :
    Except String ClientBuilder :=
  config_mut_then b (fun c => { c with referer := enable })

/-- `ClientBuilder::timeout` (`client.rs` lines 228-231). -/
def ClientBuilder.timeout (b : ClientBuilder) (t : Nat) :
    Except String ClientBuilder :=
  config_mut_then b (fun c => { c with timeout := some t })

/-! Helper lemmas about the header map. -/

theorem headerNameEq_symm {a b : String} (h : headerNameEq a b = true) :
    headerNameEq b a = true := by
  have h2 : a.data.map lowerChar = b.data.map lowerChar := by
    simpa [headerNameEq] using h
  simp [headerNameEq, h2]

theorem headerNameEq_trans {a b c : String} (h1 : headerNameEq a b = true)
    (h2 : headerNameEq b c = true) : headerNameEq a c = true := by
  have g1 : a.data.map lowerChar = b.data.map lowerChar := by
    simpa [headerNameEq] using h1
  have g2 : b.data.map lowerChar = c.data.map lowerChar := by
    simpa [headerNameEq] using h2
  simp [headerNameEq, g1.trans g2]

theorem headerNameEq_symm_false {a b : String} (h : headerNameEq a b = false) :
    headerNameEq b a = false := by
  cases hq : headerNameEq b a with
  | false => rfl
  | true => exact absurd (headerNameEq_symm hq) (by simp [h])

theorem headerNameEq_right_congr {n n' : String}
    (h : headerNameEq n n' = true) (a : String) :
    headerNameEq a n = headerNameEq a n' := by
  have h2 : n.data.map lowerChar = n'.data.map lowerChar := by
    simpa [headerNameEq] using h
  simp [headerNameEq, h2]

theorem hasHeader_congr (hs : Headers) {n n' : String}
    (h : headerNameEq n n' = true) : hasHeader hs n = hasHeader hs n' := by
  unfold hasHeader
  simp only [headerNameEq_right_congr h]

theorem hasHeader_removeHeader_of_eq (hs : Headers) (name n : String)
    (h : headerNameEq n name = true) :
    hasHeader (removeHeader hs name) n = false := by
  unfold hasHeader removeHeader
  rw [List.any_filter]
  simp only [headerNameEq_right_congr (headerNameEq_symm h)]
  simp

theorem hasHeader_removeHeader_of_ne (hs : Headers) (name n : String)
    (h : headerNameEq n name = false) :
    hasHeader (removeHeader hs name) n = hasHeader hs n := by
  unfold hasHeader removeHeader
  rw [List.any_filter]
  congr 1
  funext p
  cases hp : headerNameEq p.1 n with
  | false => simp [hp]
  | true =>
    have hpname : headerNameEq p.1 name = false := by
      cases hq : headerNameEq p.1 name with
      | false => rfl
      | true =>
        exact absurd (headerNameEq_trans (headerNameEq_symm hp) hq)
          (by simp [h])
    simp [hp, hpname]

theorem find?_headers_erase (hs : Headers) (name n : String)
    (h : headerNameEq n name = false) :
    (hs.filter (fun p => !headerNameEq p.1 name)).find?
        (fun p => headerNameEq p.1 n) =
      hs.find? (fun p => headerNameEq p.1 n) := by
  induction hs with
  | nil => rfl
  | cons p t ih =>
    cases hp : headerNameEq p.1 n with
    | true =>
      have hpname : headerNameEq p.1 name = false := by
        cases hq : headerNameEq p.1 name with
        | false => rfl
        | true =>
          exact absurd (headerNameEq_trans (headerNameEq_symm hp) hq)
            (by simp [h])
      simp [List.filter_cons, hpname, List.find?_cons, hp]
    | false =>
      cases hq : headerNameEq p.1 name with
      | true => simp [List.filter_cons, hq, List.find?_cons, hp, ih]
      | false => simp [List.filter_cons, hq, List.find?_cons, hp, ih]

theorem getHeader_removeHeader_of_ne (hs : Headers) (name n : String)
    (h : headerNameEq n name = false) :
    getHeader (removeHeader hs name) n = getHeader hs n :=
  congrArg (Option.map Prod.snd) (find?_headers_erase hs name n h)

theorem setHeader_eq_cons (hs : Headers) (name v : String) :
    setHeader hs name v = (name, v) :: removeHeader hs name := rfl

theorem getHeader_setHeader_of_ne (hs : Headers) (name v n : String)
    (h : headerNameEq n name = false) :
    getHeader (setHeader hs name v) n = getHeader hs n := by
  rw [setHeader_eq_cons]
  unfold getHeader
  rw [List.find?_cons]
  rw [headerNameEq_symm_false h]
  exact congrArg (Option.map Prod.snd) (find?_headers_erase hs name n h)

theorem hasHeader_setHeader_of_ne (hs : Headers) (name v n : String)
    (h : headerNameEq n name = false) :
    hasHeader (setHeader hs name v) n = hasHeader hs n := by
  rw [setHeader_eq_cons]
  unfold hasHeader
  rw [List.any_cons]
  rw [headerNameEq_symm_false h]
  simp only [Bool.false_or]
  exact hasHeader_removeHeader_of_ne hs name n h

theorem getHeader_setHeader_self (hs : Headers) (name v n : String)
    (h : headerNameEq name n = true) :
    getHeader (setHeader hs name v) n = some v := by
  rw [setHeader_eq_cons]
  unfold getHeader
  rw [List.find?_cons]
  rw [h]
  rfl

theorem getHeader_apply_referer_of_ne (e : Bool) (h : Headers)
    (next previous : Url) (n : String)
    (hn : headerNameEq n "Referer" = false) :
    getHeader (apply_referer e h next previous) n = getHeader h n := by
  unfold apply_referer
  split
  · rcases make_referer next previous with _ | r
    · rfl
    · exact getHeader_setHeader_of_ne h "Referer" r n hn
  · rfl

/-- Every call of the loop records the request it is about to send as the
head of its trace, whatever the transport script holds. -/
theorem executeLoop_sends_first (cfg : ClientRef)
    (join : Url → String → Option Url) (rs : List Response) (m : Method)
    (u : Url) (h : Headers) (b : Option Body) (urls : List Url) :
    (executeLoop cfg join rs m u h b urls).1.head? =
      some { method := m, url := u, headers := h, body := b } := by
  cases rs with
  | nil => rfl
  | cons res rest =>
    simp only [executeLoop]
    split
    · split
      · rfl
      · split
        · rfl
        · split <;> rfl
    · rfl

/-! Concrete fixtures used by witnesses and counterexamples. -/

/-- The secure URL `https://a/`. -/
def urlA : Url :=
  { scheme := "https", username := "", password := none, host := "a",
    port := none, path := "/", query := none, fragment := none }

/-- The secure URL `https://a/b`. -/
def urlB : Url :=
  { urlA with path := "/b" }

/-- The insecure URL `http://a/c` (same host as `urlA`, scheme downgraded). -/
def urlC : Url :=
  { urlA with scheme := "http", path := "/c" }

/-- A join function resolving the two Location values the examples use:
`/b` against `https://a/...` is `https://a/b`, and the absolute
`http://a/c` is `http://a/c`. -/
def joinAB : Url → String → Option Url := fun _ s =>
  if s = "/b" then some urlB
  else if s = "http://a/c" then some urlC
  else none

/-- Client configuration with the library defaults. -/
def cfgDefault : ClientRef :=
  { gzip := true, redirect_policy := .limit 10, referer := true }

/-- A `302 Found` response at `https://a/` redirecting to `/b`. -/
def res302 : Response :=
  { status := 302, locationHeader := some "/b", url := urlA }

/-- A `307 Temporary Redirect` response at `https://a/` pointing to `/b`. -/
def res307 : Response :=
  { status := 307, locationHeader := some "/b", url := urlA }

/-! Claim C4. -/

/-- Claim C4: for status 301, 302 or 303 the body is dropped and the method
is rewritten to GET unless it is already GET or HEAD, and the hop is always
eligible for redirect; moreover no classification ever resurrects an absent
body, so once dropped the body stays absent for the rest of the call. -/
theorem moved_permanently_rewrites_method_and_drops_body
    (s s2 : Nat) (m m2 : Method) (b : Option Body)
    (hs : s = 301 ∨ s = 302 ∨ s = 303) :
    classify s m b =
      (true, (if m = .GET ∨ m = .HEAD then m else .GET), none) ∧
    (classify s2 m2 none).2.2 = none := by
  constructor
  · rcases hs with hs | hs | hs <;> subst hs <;> cases m <;> simp [classify]
  · unfold classify
    split
    · rfl
    · split
      · rfl
      · rfl

/-- Witness for C4 at status 302 with a POST carrying a resettable body, and
status 307 with a PUT and no body. -/
theorem moved_permanently_rewrites_method_and_drops_body_witness :
    classify 302 .POST (some { canReset := true }) = (true, .GET, none) ∧
    (classify 307 .PUT none).2.2 = none :=
  ⟨(moved_permanently_rewrites_method_and_drops_body 302 307 .POST .PUT
      (some { canReset := true }) (Or.inr (Or.inl rfl))).1,
   (moved_permanently_rewrites_method_and_drops_body 302 307 .POST .PUT
      (some { canReset := true }) (Or.inr (Or.inl rfl))).2⟩

/-! Claim C3. -/

/-- Claim C3 counterexample: a 307 response with a present, non-resettable
body is NOT followed even though a Location is present, a further response is
scripted and the policy would allow it: the loop sends exactly one request
and returns the 307 response itself as the terminal result, instead of
resending without a body. -/
theorem non_resettable_307_not_followed :
    (execute_request cfgDefault joinAB
        [res307, { status := 200, locationHeader := none, url := urlB }]
        { method := .POST, url := urlA, headers := [],
          body := some { canReset := false } }).1.length = 1 ∧
    (execute_request cfgDefault joinAB
        [res307, { status := 200, locationHeader := none, url := urlB }]
        { method := .POST, url := urlA, headers := [],
          body := some { canReset := false } }).2 = .ok res307 :=
  ⟨rfl, rfl⟩

/-- Claim C3 (amended): a 307/308 response is eligible for redirect exactly
when the body reports itself resettable (method and body preserved); when the
body is present but not resettable the hop is not followed and the response
is returned as the terminal result. -/
theorem temporary_redirect_needs_resettable_body
    (s : Nat) (m : Method) (bb : Body) (cfg : ClientRef)
    (join : Url → String → Option Url) (res : Response)
    (rest : List Response) (u : Url) (h : Headers) (urls : List Url)
    (hs : s = 307 ∨ s = 308) (hstat : res.status = s) :
    classify s m (some bb) = (can_reset bb, m, some bb) ∧
    (can_reset bb = false →
      executeLoop cfg join (res :: rest) m u h (some bb) urls =
        ([{ method := m, url := u, headers := h, body := some bb }],
         .ok res)) := by
  have h1 : classify s m (some bb) = (can_reset bb, m, some bb) := by
    rcases hs with hs | hs <;> subst hs <;> simp [classify]
  refine ⟨h1, fun hcr => ?_⟩
  simp [executeLoop, hstat, h1, hcr]

/-- Witness for C3 (amended) at a concrete 307 hop with a non-resettable
POST body. -/
theorem temporary_redirect_needs_resettable_body_witness :
    classify 307 .POST (some { canReset := false }) =
      (false, .POST, some { canReset := false }) ∧
    executeLoop cfgDefault joinAB [res307] .POST urlA []
        (some { canReset := false }) [] =
      ([{ method := .POST, url := urlA, headers := [],
          body := some { canReset := false } }], .ok res307) :=
  ⟨(temporary_redirect_needs_resettable_body 307 .POST { canReset := false }
      cfgDefault joinAB res307 [] urlA [] [] (Or.inl rfl) rfl).1,
   (temporary_redirect_needs_resettable_body 307 .POST { canReset := false }
      cfgDefault joinAB res307 [] urlA [] [] (Or.inl rfl) rfl).2 rfl⟩

/-! Claim C7. -/

/-- Claim C7: on a non-downgrade hop the computed Referer value is the
previous URL with the username set to empty, the password cleared and the
fragment removed; and with Referer support disabled the Referer step leaves
the headers of every hop untouched. -/
theorem make_referer_strips_userinfo_and_fragment
    (h : Headers) (next previous : Url)
    (hnd : ¬(next.scheme = "http" ∧ previous.scheme = "https")) :
    make_referer next previous =
      some (urlToString
        { previous with username := "", password := none, fragment := none }) ∧
    apply_referer false h next previous = h := by
  exact ⟨by simp [make_referer, hnd], rfl⟩

/-- Witness for C7: an https → https hop from a URL with userinfo and a
fragment; the computed value is the serialized stripped URL. -/
theorem make_referer_strips_userinfo_and_fragment_witness :
    make_referer urlB
        { urlA with username := "user", password := some "pw",
                    fragment := some "frag" } =
      some "https://a/" ∧
    apply_referer false [("Authorization", "secret")] urlB urlA =
      [("Authorization", "secret")] :=
  ⟨(make_referer_strips_userinfo_and_fragment []
      urlB { urlA with username := "user", password := some "pw",
                       fragment := some "frag" } (by decide)).1,
   (make_referer_strips_userinfo_and_fragment [("Authorization", "secret")]
      urlB urlA (by decide)).2⟩

/-! Claim C6. -/

/-- Claim C6: a redirect-eligible response whose Location header is missing,
or whose Location value fails to resolve against the current URL, is
returned as the successful terminal result, never as an error. -/
theorem missing_or_invalid_location_terminal
    (cfg : ClientRef) (join : Url → String → Option Url) (res : Response)
    (rest : List Response) (m : Method) (u : Url) (h : Headers)
    (b : Option Body) (urls : List Url) (m2 : Method) (b2 : Option Body)
    (locStr : String)
    (hcls : classify res.status m b = (true, m2, b2)) :
    (res.locationHeader = none →
      executeLoop cfg join (res :: rest) m u h b urls =
        ([{ method := m, url := u, headers := h, body := b }], .ok res)) ∧
    (res.locationHeader = some locStr → join u locStr = none →
      executeLoop cfg join (res :: rest) m u h b urls =
        ([{ method := m, url := u, headers := h, body := b }], .ok res)) := by
  constructor
  · intro hl
    simp [executeLoop, hcls, hl]
  · intro hl hj
    simp [executeLoop, hcls, hl, hj]

/-- Witness for C6: a 302 without a Location header, and a 302 whose
Location value does not resolve. -/
theorem missing_or_invalid_location_terminal_witness :
    executeLoop cfgDefault joinAB
        [{ status := 302, locationHeader := none, url := urlA }]
        .GET urlA [] none [] =
      ([{ method := .GET, url := urlA, headers := [], body := none }],
       .ok { status := 302, locationHeader := none, url := urlA }) ∧
    executeLoop cfgDefault joinAB
        [{ status := 302, locationHeader := some "::bad::", url := urlA }]
        .GET urlA [] none [] =
      ([{ method := .GET, url := urlA, headers := [], body := none }],
       .ok { status := 302, locationHeader := some "::bad::", url := urlA }) :=
  ⟨(missing_or_invalid_location_terminal cfgDefault joinAB
      { status := 302, locationHeader := none, url := urlA } [] .GET urlA []
      none [] .GET none "::bad::" rfl).1 rfl,
   (missing_or_invalid_location_terminal cfgDefault joinAB
      { status := 302, locationHeader := some "::bad::", url := urlA } []
      .GET urlA [] none [] .GET none "::bad::" rfl).2 rfl rfl⟩

/-! Claim C5. -/

/-- Claim C5: on an eligible hop with a resolvable Location, the policy's
action maps to the outcomes of `execute`: Stop returns the last response as a
successful terminal result, LoopDetected fails with the loop error carrying
the response's URL, TooManyRedirects fails with the corresponding error
carrying the response's URL, and Follow adopts the candidate URL and loops to
resend with the updated method, headers and body. -/
theorem policy_action_outcomes
    (cfg : ClientRef) (join : Url → String → Option Url) (res : Response)
    (rest : List Response) (m : Method) (u : Url) (h : Headers)
    (b : Option Body) (urls : List Url) (m2 : Method) (b2 : Option Body)
    (locStr : String) (loc : Url)
    (hcls : classify res.status m b = (true, m2, b2))
    (hloc : res.locationHeader = some locStr)
    (hjoin : join u locStr = some loc) :
    (check_redirect cfg.redirect_policy loc (urls ++ [u]) = .stop →
      executeLoop cfg join (res :: rest) m u h b urls =
        ([{ method := m, url := u, headers := h, body := b }], .ok res)) ∧
    (check_redirect cfg.redirect_policy loc (urls ++ [u]) = .loopDetected →
      executeLoop cfg join (res :: rest) m u h b urls =
        ([{ method := m, url := u, headers := h, body := b }],
         .error (.loopDetected res.url))) ∧
    (check_redirect cfg.redirect_policy loc (urls ++ [u]) = .tooManyRedirects →
      executeLoop cfg join (res :: rest) m u h b urls =
        ([{ method := m, url := u, headers := h, body := b }],
         .error (.tooManyRedirects res.url))) ∧
    (check_redirect cfg.redirect_policy loc (urls ++ [u]) = .follow →
      executeLoop cfg join (res :: rest) m u h b urls =
        ({ method := m, url := u, headers := h, body := b } ::
          (executeLoop cfg join rest m2 loc
            (remove_sensitive_headers (apply_referer cfg.referer h loc u)
              loc (urls ++ [u])) b2 (urls ++ [u])).1,
         (executeLoop cfg join rest m2 loc
            (remove_sensitive_headers (apply_referer cfg.referer h loc u)
              loc (urls ++ [u])) b2 (urls ++ [u])).2)) := by
  refine ⟨?_, ?_, ?_, ?_⟩ <;> intro hact <;>
    simp [executeLoop, hcls, hloc, hjoin, hact]

/-- A client whose custom policy always stops. -/
def cfgStop : ClientRef :=
  { gzip := true, redirect_policy := .custom (fun _ _ => .stop),
    referer := false }

/-- A client whose custom policy always reports a loop. -/
def cfgLoop : ClientRef :=
  { gzip := true, redirect_policy := .custom (fun _ _ => .loopDetected),
    referer := false }

/-- A client whose custom policy always reports too many redirects. -/
def cfgMany : ClientRef :=
  { gzip := true, redirect_policy := .custom (fun _ _ => .tooManyRedirects),
    referer := false }

/-- A client whose custom policy always follows. -/
def cfgFollow : ClientRef :=
  { gzip := true, redirect_policy := .custom (fun _ _ => .follow),
    referer := false }

/-- Witness for C5: the same eligible 302 hop under the four policy
actions; Follow resends to `https://a/b` where the script runs dry, the two
error actions carry the response's URL, and Stop terminates successfully. -/
theorem policy_action_outcomes_witness :
    executeLoop cfgStop joinAB [res302] .GET urlA [] none [] =
      ([{ method := .GET, url := urlA, headers := [], body := none }],
       .ok res302) ∧
    executeLoop cfgLoop joinAB [res302] .GET urlA [] none [] =
      ([{ method := .GET, url := urlA, headers := [], body := none }],
       .error (.loopDetected urlA)) ∧
    executeLoop cfgMany joinAB [res302] .GET urlA [] none [] =
      ([{ method := .GET, url := urlA, headers := [], body := none }],
       .error (.tooManyRedirects urlA)) ∧
    executeLoop cfgFollow joinAB [res302] .GET urlA [] none [] =
      ([{ method := .GET, url := urlA, headers := [], body := none },
        { method := .GET, url := urlB, headers := [], body := none }],
       .error (.transportError urlB)) :=
  ⟨(policy_action_outcomes cfgStop joinAB res302 [] .GET urlA [] none []
      .GET none "/b" urlB rfl rfl rfl).1 rfl,
   (policy_action_outcomes cfgLoop joinAB res302 [] .GET urlA [] none []
      .GET none "/b" urlB rfl rfl rfl).2.1 rfl,
   (policy_action_outcomes cfgMany joinAB res302 [] .GET urlA [] none []
      .GET none "/b" urlB rfl rfl rfl).2.2.1 rfl,
   (policy_action_outcomes cfgFollow joinAB res302 [] .GET urlA [] none []
      .GET none "/b" urlB rfl rfl rfl).2.2.2 rfl⟩

/-! Claim C10. -/

/-- Claim C10: a 307/308 response arriving when the request has no body is
always classified eligible with the method preserved unchanged and the body
still absent; on a followed hop the next outgoing request carries the same
method (including non-GET/HEAD methods) and no body. -/
theorem redirect_307_preserves_method_without_body
    (s : Nat) (m : Method) (cfg : ClientRef)
    (join : Url → String → Option Url) (res : Response)
    (rest : List Response) (u : Url) (h : Headers) (urls : List Url)
    (locStr : String) (loc : Url)
    (hs : s = 307 ∨ s = 308) (hstat : res.status = s)
    (hloc : res.locationHeader = some locStr)
    (hjoin : join u locStr = some loc)
    (hact : check_redirect cfg.redirect_policy loc (urls ++ [u]) = .follow) :
    classify s m none = (true, m, none) ∧
    (executeLoop cfg join (res :: rest) m u h none urls).1.tail.head? =
      some { method := m, url := loc,
             headers := remove_sensitive_headers
               (apply_referer cfg.referer h loc u) loc (urls ++ [u]),
             body := none } := by
  have h1 : classify s m none = (true, m, none) := by
    rcases hs with hs | hs <;> subst hs <;> simp [classify]
  have h2 : classify res.status m none = (true, m, none) := by
    rw [hstat]; exact h1
  refine ⟨h1, ?_⟩
  simp [executeLoop, h2, hloc, hjoin, hact, executeLoop_sends_first]

/-- Witness for C10: a bodyless POST hitting a 307 under the default policy
keeps POST on the resend to `https://a/b` and the body stays absent. -/
theorem redirect_307_preserves_method_without_body_witness :
    classify 307 .POST none = (true, .POST, none) ∧
    (executeLoop cfgDefault joinAB [res307] .POST urlA [] none
        []).1.tail.head? =
      some { method := .POST, url := urlB,
             headers := [("Referer", "https://a/")], body := none } :=
  ⟨(redirect_307_preserves_method_without_body 307 .POST cfgDefault joinAB
      res307 [] urlA [] [] "/b" urlB (Or.inl rfl) rfl rfl rfl
      (by decide)).1,
   (redirect_307_preserves_method_without_body 307 .POST cfgDefault joinAB
      res307 [] urlA [] [] "/b" urlB (Or.inl rfl) rfl rfl rfl
      (by decide)).2⟩

/-! Claim C2. -/

/-- Claim C2: on a followed hop, the outgoing request of the next send
carries exactly the sanitized headers; the sanitizer removes Authorization,
Cookie and Proxy-Authorization whenever the adopted target differs from the
prior hop's URL in host or scheme, and on a same-host same-scheme hop it
changes nothing, so the sensitive headers are present with their pre-hop
values. -/
theorem sensitive_headers_stripped_on_follow
    (cfg : ClientRef) (join : Url → String → Option Url) (res : Response)
    (rest : List Response) (m : Method) (u : Url) (h : Headers)
    (b : Option Body) (urls : List Url) (m2 : Method) (b2 : Option Body)
    (locStr : String) (loc : Url)
    (hcls : classify res.status m b = (true, m2, b2))
    (hloc : res.locationHeader = some locStr)
    (hjoin : join u locStr = some loc)
    (hact : check_redirect cfg.redirect_policy loc (urls ++ [u]) = .follow) :
    (executeLoop cfg join (res :: rest) m u h b urls).1.tail.head? =
      some { method := m2, url := loc,
             headers := remove_sensitive_headers
               (apply_referer cfg.referer h loc u) loc (urls ++ [u]),
             body := b2 } ∧
    (¬(loc.host = u.host ∧ loc.scheme = u.scheme) →
      hasHeader (remove_sensitive_headers (apply_referer cfg.referer h loc u)
        loc (urls ++ [u])) "Authorization" = false ∧
      hasHeader (remove_sensitive_headers (apply_referer cfg.referer h loc u)
        loc (urls ++ [u])) "Cookie" = false ∧
      hasHeader (remove_sensitive_headers (apply_referer cfg.referer h loc u)
        loc (urls ++ [u])) "Proxy-Authorization" = false) ∧
    (loc.host = u.host ∧ loc.scheme = u.scheme →
      remove_sensitive_headers (apply_referer cfg.referer h loc u) loc
          (urls ++ [u]) =
        apply_referer cfg.referer h loc u ∧
      getHeader (remove_sensitive_headers (apply_referer cfg.referer h loc u)
        loc (urls ++ [u])) "Authorization" = getHeader h "Authorization" ∧
      getHeader (remove_sensitive_headers (apply_referer cfg.referer h loc u)
        loc (urls ++ [u])) "Cookie" = getHeader h "Cookie" ∧
      getHeader (remove_sensitive_headers (apply_referer cfg.referer h loc u)
        loc (urls ++ [u])) "Proxy-Authorization" =
          getHeader h "Proxy-Authorization") := by
  have hlast : (urls ++ [u]).getLast? = some u := List.getLast?_concat urls
  refine ⟨?_, ?_, ?_⟩
  · simp [executeLoop, hcls, hloc, hjoin, hact, executeLoop_sends_first]
  · intro hcross
    simp only [remove_sensitive_headers, hlast]
    rw [if_neg hcross]
    refine ⟨?_, ?_, ?_⟩
    · rw [hasHeader_removeHeader_of_ne _ "Proxy-Authorization"
          "Authorization" (by decide),
        hasHeader_removeHeader_of_ne _ "Cookie" "Authorization" (by decide)]
      exact hasHeader_removeHeader_of_eq _ "Authorization" "Authorization"
        (by decide)
    · rw [hasHeader_removeHeader_of_ne _ "Proxy-Authorization" "Cookie"
          (by decide)]
      exact hasHeader_removeHeader_of_eq _ "Cookie" "Cookie" (by decide)
    · exact hasHeader_removeHeader_of_eq _ "Proxy-Authorization"
        "Proxy-Authorization" (by decide)
  · intro hsame
    simp only [remove_sensitive_headers, hlast]
    rw [if_pos hsame]
    exact ⟨rfl,
      getHeader_apply_referer_of_ne cfg.referer h loc u "Authorization"
        (by decide),
      getHeader_apply_referer_of_ne cfg.referer h loc u "Cookie" (by decide),
      getHeader_apply_referer_of_ne cfg.referer h loc u "Proxy-Authorization"
        (by decide)⟩

/-- A caller-supplied header set carrying the three sensitive headers and a
custom one. -/
def hdrsSensitive : Headers :=
  [("Authorization", "secret"), ("Cookie", "c=1"),
   ("Proxy-Authorization", "p"), ("X-Custom", "v")]

/-- Witness for C2: a cross-scheme hop `https://a/b` → `http://a/c` strips
the sensitive headers, and a same-host same-scheme hop `https://a/` →
`https://a/b` leaves them present and unchanged. -/
theorem sensitive_headers_stripped_on_follow_witness :
    hasHeader (remove_sensitive_headers
      (apply_referer true hdrsSensitive urlC urlB) urlC ([urlA] ++ [urlB]))
      "Authorization" = false ∧
    hasHeader (remove_sensitive_headers
      (apply_referer true hdrsSensitive urlC urlB) urlC ([urlA] ++ [urlB]))
      "Cookie" = false ∧
    getHeader (remove_sensitive_headers
      (apply_referer true hdrsSensitive urlB urlA) urlB ([] ++ [urlA]))
      "Authorization" = getHeader hdrsSensitive "Authorization" ∧
    getHeader (remove_sensitive_headers
      (apply_referer true hdrsSensitive urlB urlA) urlB ([] ++ [urlA]))
      "Cookie" = getHeader hdrsSensitive "Cookie" :=
  ⟨((sensitive_headers_stripped_on_follow
      { gzip := true, redirect_policy := .limit 10, referer := true } joinAB
      { status := 302, locationHeader := some "http://a/c", url := urlB } []
      .GET urlB hdrsSensitive none [urlA] .GET none "http://a/c" urlC rfl rfl
      rfl (by decide)).2.1 (by decide)).1,
   ((sensitive_headers_stripped_on_follow
      { gzip := true, redirect_policy := .limit 10, referer := true } joinAB
      { status := 302, locationHeader := some "http://a/c", url := urlB } []
      .GET urlB hdrsSensitive none [urlA] .GET none "http://a/c" urlC rfl rfl
      rfl (by decide)).2.1 (by decide)).2.1,
   ((sensitive_headers_stripped_on_follow
      { gzip := true, redirect_policy := .limit 10, referer := true } joinAB
      res302 [] .GET urlA hdrsSensitive none [] .GET none "/b" urlB rfl rfl
      rfl (by decide)).2.2 (by decide)).2.1,
   ((sensitive_headers_stripped_on_follow
      { gzip := true, redirect_policy := .limit 10, referer := true } joinAB
      res302 [] .GET urlA hdrsSensitive none [] .GET none "/b" urlB rfl rfl
      rfl (by decide)).2.2 (by decide)).2.2.1⟩

/-! Claim C1. -/

/-- Claim C1 counterexample: in the chain `https://a/` → `https://a/b` →
`http://a/c`, the Referer set on the first (secure) hop is not cleared on
the downgrade hop: the third outgoing request has scheme `http`, its
predecessor had scheme `https`, and it still carries a Referer header. -/
theorem referer_persists_on_downgrade_hop :
    ((execute_request cfgDefault joinAB
        [{ status := 302, locationHeader := some "/b", url := urlA },
         { status := 302, locationHeader := some "http://a/c", url := urlB },
         { status := 200, locationHeader := none, url := urlC }]
        { method := .GET, url := urlA, headers := [], body := none }).1.map
      (fun r => (r.url.scheme, hasHeader r.headers "Referer"))) =
      [("https", false), ("https", true), ("http", true)] := by
  decide

/-- Claim C1 (amended): on an https → http hop no Referer value is computed
— `make_referer` yields no value and the Referer step leaves the headers
exactly as they are — but a Referer header set on an earlier hop is not
cleared and persists on the resent request. -/
theorem referer_not_computed_on_downgrade (e : Bool) (h : Headers)
    (next previous : Url) (hn : next.scheme = "http")
    (hp : previous.scheme = "https") :
    make_referer next previous = none ∧
    apply_referer e h next previous = h := by
  have hm : make_referer next previous = none := by
    simp [make_referer, hn, hp]
  exact ⟨hm, by simp [apply_referer, hm]⟩

/-- Witness for C1 (amended): the downgrade hop `https://a/b` →
`http://a/c` computes no Referer and passes a stale Referer through. -/
theorem referer_not_computed_on_downgrade_witness :
    make_referer urlC urlB = none ∧
    apply_referer true [("Referer", "https://a/")] urlC urlB =
      [("Referer", "https://a/")] :=
  referer_not_computed_on_downgrade true [("Referer", "https://a/")] urlC
    urlB rfl rfl

/-! Claim C8. -/

theorem absent_set_keeps (hs : Headers) (name v n : String)
    (hname : hasHeader hs name = false) (hn : hasHeader hs n = true) :
    hasHeader (setHeader hs name v) n = true ∧
    getHeader (setHeader hs name v) n = getHeader hs n := by
  have hne : headerNameEq n name = false := by
    cases hc : headerNameEq n name with
    | false => rfl
    | true =>
      rw [hasHeader_congr hs hc, hname] at hn
      simp at hn
  exact ⟨(hasHeader_setHeader_of_ne hs name v n hne).trans hn,
    getHeader_setHeader_of_ne hs name v n hne⟩

theorem setIfAbsent_keeps (hs : Headers) (name v n : String)
    (hn : hasHeader hs n = true) :
    hasHeader (if hasHeader hs name then hs else setHeader hs name v) n =
      true ∧
    getHeader (if hasHeader hs name then hs else setHeader hs name v) n =
      getHeader hs n := by
  by_cases hc : hasHeader hs name = true
  · rw [if_pos hc]
    exact ⟨hn, rfl⟩
  · have hc2 : hasHeader hs name = false := by
      cases hcc : hasHeader hs name
      · rfl
      · exact absurd hcc hc
    rw [if_neg hc]
    exact absent_set_keeps hs name v n hc2 hn

/-- Claim C8: on entry, `execute` sets a default User-Agent only when none
is present, `Accept: */*` only when no Accept is present, and
`Accept-Encoding: gzip` when gzip is enabled and no Accept-Encoding and no
Range header are present; a header the caller already supplied is never
overwritten. -/
theorem default_headers_only_if_absent (g : Bool) (h : Headers)
    (n : String) :
    (hasHeader h "User-Agent" = false →
      getHeader (default_headers g h) "User-Agent" =
        some DEFAULT_USER_AGENT) ∧
    (hasHeader h "Accept" = false →
      getHeader (default_headers g h) "Accept" = some "*/*") ∧
    (g = true → hasHeader h "Accept-Encoding" = false →
      hasHeader h "Range" = false →
      getHeader (default_headers g h) "Accept-Encoding" = some "gzip") ∧
    (hasHeader h n = true →
      getHeader (default_headers g h) n = getHeader h n) := by
  have k3UA : ∀ hs : Headers,
      getHeader (if g && !hasHeader hs "Accept-Encoding" &&
          !hasHeader hs "Range" then
        setHeader hs "Accept-Encoding" "gzip" else hs) "User-Agent" =
      getHeader hs "User-Agent" := by
    intro hs
    split
    · exact getHeader_setHeader_of_ne hs "Accept-Encoding" "gzip"
        "User-Agent" (by decide)
    · rfl
  have k2UA : ∀ hs : Headers,
      getHeader (if hasHeader hs "Accept" then hs
        else setHeader hs "Accept" "*/*") "User-Agent" =
      getHeader hs "User-Agent" := by
    intro hs
    split
    · rfl
    · exact getHeader_setHeader_of_ne hs "Accept" "*/*" "User-Agent"
        (by decide)
  have k3Acc : ∀ hs : Headers,
      getHeader (if g && !hasHeader hs "Accept-Encoding" &&
          !hasHeader hs "Range" then
        setHeader hs "Accept-Encoding" "gzip" else hs) "Accept" =
      getHeader hs "Accept" := by
    intro hs
    split
    · exact getHeader_setHeader_of_ne hs "Accept-Encoding" "gzip" "Accept"
        (by decide)
    · rfl
  refine ⟨?_, ?_, ?_, ?_⟩
  · intro hUA
    simp only [default_headers]
    rw [k3UA, k2UA]
    rw [if_neg (by simp [hUA])]
    exact getHeader_setHeader_self h "User-Agent" DEFAULT_USER_AGENT
      "User-Agent" (by decide)
  · intro hAcc
    simp only [default_headers]
    rw [k3Acc]
    have hT1 : hasHeader (if hasHeader h "User-Agent" then h
        else setHeader h "User-Agent" DEFAULT_USER_AGENT) "Accept" =
        false := by
      split
      · exact hAcc
      · rw [hasHeader_setHeader_of_ne h "User-Agent" DEFAULT_USER_AGENT
          "Accept" (by decide)]
        exact hAcc
    rw [if_neg (by simp [hT1])]
    exact getHeader_setHeader_self _ "Accept" "*/*" "Accept" (by decide)
  · intro hg hAE hR
    simp only [default_headers]
    have keep : ∀ (name v nm : String), headerNameEq nm name = false →
        ∀ hs : Headers, hasHeader hs nm = false →
        hasHeader (if hasHeader hs name then hs else setHeader hs name v)
          nm = false := by
      intro name v nm hne hs hh
      split
      · exact hh
      · rw [hasHeader_setHeader_of_ne hs name v nm hne]
        exact hh
    have hT2AE := keep "Accept" "*/*" "Accept-Encoding" (by decide) _
      (keep "User-Agent" DEFAULT_USER_AGENT "Accept-Encoding" (by decide)
        h hAE)
    have hT2R := keep "Accept" "*/*" "Range" (by decide) _
      (keep "User-Agent" DEFAULT_USER_AGENT "Range" (by decide) h hR)
    rw [if_pos (by simp [hg, hT2AE, hT2R])]
    exact getHeader_setHeader_self _ "Accept-Encoding" "gzip"
      "Accept-Encoding" (by decide)
  · intro hn
    simp only [default_headers]
    have k3n : ∀ hs : Headers, hasHeader hs n = true →
        getHeader (if g && !hasHeader hs "Accept-Encoding" &&
            !hasHeader hs "Range" then
          setHeader hs "Accept-Encoding" "gzip" else hs) n =
        getHeader hs n := by
      intro hs hh
      split
      · rename_i hcond
        simp only [Bool.and_eq_true, Bool.not_eq_true'] at hcond
        exact (absent_set_keeps hs "Accept-Encoding" "gzip" n hcond.1.2
          hh).2
      · rfl
    have p1 := setIfAbsent_keeps h "User-Agent" DEFAULT_USER_AGENT n hn
    have p2 := setIfAbsent_keeps _ "Accept" "*/*" n p1.1
    rw [k3n _ p2.1, p2.2, p1.2]

/-- Witness for C8: with no caller headers all three defaults are set, and
a caller-supplied Accept value survives untouched. -/
theorem default_headers_only_if_absent_witness :
    getHeader (default_headers true []) "User-Agent" =
      some DEFAULT_USER_AGENT ∧
    getHeader (default_headers true []) "Accept" = some "*/*" ∧
    getHeader (default_headers true []) "Accept-Encoding" = some "gzip" ∧
    getHeader (default_headers true [("Accept", "text/html")]) "Accept" =
      getHeader [("Accept", "text/html")] "Accept" :=
  ⟨(default_headers_only_if_absent true [] "Accept").1 rfl,
   (default_headers_only_if_absent true [] "Accept").2.1 rfl,
   (default_headers_only_if_absent true [] "Accept").2.2.1 rfl rfl rfl,
   (default_headers_only_if_absent true [("Accept", "text/html")]
      "Accept").2.2.2 rfl⟩

/-! Claim C9. -/

/-- Claim C9: `build` consumes the builder's configuration exactly once;
calling `build` or any configuration mutator on the consumed builder fails
loudly with the reuse panic, and no operation ever silently reuses stale
state. -/
theorem builder_consumed_fails_loudly
    (b b2 : ClientBuilder) (client : Client) (cert : Certificate)
    (en : Bool) (pol : RedirectPolicy) (d : Nat)
    (hbuild : ClientBuilder.build b = .ok (client, b2)) :
    b2.config = none ∧
    ClientBuilder.build b2 = .error builderPanicMsg ∧
    ClientBuilder.add_root_certificate b2 cert = .error builderPanicMsg ∧
    ClientBuilder.danger_disable_hostname_verification b2 =
      .error builderPanicMsg ∧
    ClientBuilder.enable_hostname_verification b2 =
      .error builderPanicMsg ∧
    ClientBuilder.gzip b2 en = .error builderPanicMsg ∧
    ClientBuilder.redirect b2 pol = .error builderPanicMsg ∧
    ClientBuilder.referer b2 en = .error builderPanicMsg ∧
    ClientBuilder.timeout b2 d = .error builderPanicMsg := by
  have hcfg : b2.config = none := by
    rcases hb : b.config with _ | c
    · simp [ClientBuilder.build, take_config, hb] at hbuild
    · simp only [ClientBuilder.build, take_config, hb, Except.ok.injEq,
        Prod.mk.injEq] at hbuild
      rw [← hbuild.2]
  refine ⟨hcfg, ?_, ?_, ?_, ?_, ?_, ?_, ?_, ?_⟩ <;>
    simp [ClientBuilder.build, ClientBuilder.add_root_certificate,
      ClientBuilder.danger_disable_hostname_verification,
      ClientBuilder.enable_hostname_verification, ClientBuilder.gzip,
      ClientBuilder.redirect, ClientBuilder.referer, ClientBuilder.timeout,
      take_config, config_mut_then, hcfg]

/-- Witness for C9: building a fresh builder consumes it, and every further
operation on it returns the reuse panic. -/
theorem builder_consumed_fails_loudly_witness :
    ({ config := none } : ClientBuilder).config = none ∧
    ClientBuilder.build { config := none } = .error builderPanicMsg ∧
    ClientBuilder.add_root_certificate { config := none } { der := [] } =
      .error builderPanicMsg ∧
    ClientBuilder.danger_disable_hostname_verification { config := none } =
      .error builderPanicMsg ∧
    ClientBuilder.enable_hostname_verification { config := none } =
      .error builderPanicMsg ∧
    ClientBuilder.gzip { config := none } false = .error builderPanicMsg ∧
    ClientBuilder.redirect { config := none } RedirectPolicy.noFollow =
      .error builderPanicMsg ∧
    ClientBuilder.referer { config := none } false =
      .error builderPanicMsg ∧
    ClientBuilder.timeout { config := none } 5 = .error builderPanicMsg :=
  builder_consumed_fails_loudly ClientBuilder.new { config := none }
    { gzip := true, redirect_policy := RedirectPolicy.default,
      referer := true }
    { der := [] } false RedirectPolicy.noFollow 5 rfl

end Reqwest
